import Mathlib

/-!
# Verification of the xdevice test-execution framework (openharmony/test_xdevice)

Shallow embedding, in Lean 4, of the parts of the repository needed to settle
the frozen claims C1-C10:

* `ohos/managers/manager_device.py` — `ManagerDevice.append_device_by_sort`
* `xdevice/_core/executor/scheduler.py` — `Scheduler.compare_spt_time`
* `ohos/testkit/kit.py` — `STSKit.__setup__`
* `ohos/drivers/drivers.py` — `_create_empty_result_file`,
  `CppTestDriver._run_with_rerun` / `_rerun_all` / `_rerun_serially`,
  `RemoteCppTestRunner.rerun`
* `ohos/environment/device.py` — `perform_device_action`
* `xdevice/_core/executor/concurrent.py` — `DriversThread._get_driver_request`
* `ohos/parser/parser_lite.py` — `CppTestParserLite`, `JSUnitParserLite`

Python strings are modelled as Lean `String`, machine integers as `Int`/`Nat`
(no overflow is reachable in the embedded code paths), Python `None`-or-bool
returns as a three-valued type, exceptions as `Except`, and the filesystem /
object heap as explicit state.
-/

namespace Xdevice

/-! ## Small string helpers shared by several embeddings -/

/-- Value of a list of decimal digit characters. -/
def digitsVal (cs : List Char) : Nat :=
  cs.foldl (fun acc c => acc * 10 + (c.toNat - '0'.toNat)) 0

/-- All characters are ASCII decimal digits (Python `\d` for the ASCII inputs
used by this code base). -/
def allDigits (cs : List Char) : Bool :=
  cs.all (fun c => c.isDigit)

/-- Python `str.split(sep)` for a one-character separator, over the character
list.  `split` of the empty string is `[""]`, like in Python. -/
def splitOnChar (sep : Char) : List Char → List (List Char)
  | [] => [[]]
  | c :: rest =>
    match splitOnChar sep rest with
    | [] => [[]]
    | h :: t => if c = sep then [] :: h :: t else (c :: h) :: t

/-- `splitOnChar` lifted to `String`. -/
def pySplit (sep : Char) (s : String) : List String :=
  (splitOnChar sep s.data).map String.mk

/-! ## C7 — `ManagerDevice.append_device_by_sort`
(`src/plugins/ohos/src/ohos/managers/manager_device.py`)

A managed device is identified here by its serial number; the method only
reads `device_sn`, so the embedding carries the serial strings themselves. -/

/-- `dict(zip(self.global_device_filter, range(1, len+1)))` followed by a key
lookup.  Python dict construction lets a later duplicate key overwrite an
earlier one, hence the `reverse` before the first-match `lookup`. -/
def deviceDictRank (filt : List String) (sn : String) : Nat :=
  (((filt.zip ((List.range filt.length).map (· + 1))).reverse).lookup sn).getD 0

/-- The `for index in range(len(self.devices_list)) ... else append` insertion
loop of `append_device_by_sort`: insert before the first element that is not
in the filter or whose filter rank is larger; append if no break fires. -/
def insertBySort (filt : List String) (sn : String) : List String → List String
  | [] => [sn]
  | x :: xs =>
    if ¬ (filt.contains x) then sn :: x :: xs
    else if deviceDictRank filt sn < deviceDictRank filt x then sn :: x :: xs
    else x :: insertBySort filt sn xs

/-- `ManagerDevice.append_device_by_sort(device_instance)` acting on the
`devices_list` (represented by the list of serial numbers). -/
def appendDeviceBySort (filt : List String) (lst : List String) (sn : String) :
    List String :=
  if filt.isEmpty ∨ lst.isEmpty ∨ ¬ (filt.contains sn) then lst ++ [sn]
  else insertBySort filt sn lst

/-! ## C3 — `Scheduler.compare_spt_time`
(`src/src/xdevice/_core/executor/scheduler.py`) -/

/-- The three values the Python function can return: `True`, `False`, or the
implicit `None` of falling off the end of the `if` chain. -/
inductive PyRet where
  | pyTrue
  | pyFalse
  | pyNone
deriving DecidableEq, Repr

/-- `datetime.datetime.strptime(s, "%Y-%m")`: CPython's `%Y` matches exactly
four decimal digits and `%m` matches `1[0-2]|0[1-9]|[1-9]`, with the whole
string consumed (leftover characters raise `ValueError`); constructing the
`datetime` additionally enforces `MINYEAR = 1 ≤ year` (`MAXYEAR = 9999` is
implied by the four digits), so year `0000` also raises `ValueError`.
Returns `(year, month)` on success, `none` for the `ValueError` path. -/
def strptimeYm (s : String) : Option (Nat × Nat) :=
  match s.data with
  | [y1, y2, y3, y4, '-', m1, m2] =>
    if allDigits [y1, y2, y3, y4] ∧ 1 ≤ digitsVal [y1, y2, y3, y4] ∧
        ((m1 = '1' ∧ ('0' ≤ m2 ∧ m2 ≤ '2')) ∨ (m1 = '0' ∧ ('1' ≤ m2 ∧ m2 ≤ '9'))) then
      some (digitsVal [y1, y2, y3, y4], digitsVal [m1, m2])
    else none
  | [y1, y2, y3, y4, '-', m1] =>
    if allDigits [y1, y2, y3, y4] ∧ 1 ≤ digitsVal [y1, y2, y3, y4] ∧
        ('1' ≤ m1 ∧ m1 ≤ '9') then
      some (digitsVal [y1, y2, y3, y4], digitsVal [m1])
    else none
  | _ => none

/-- `"-".join(str(spt).split("-")[:2])` — the normalisation both arguments of
`compare_spt_time` go through before `strptime`. -/
def sptNormalize (s : String) : String :=
  String.intercalate "-" ((pySplit '-' s).take 2)

/-- The comparison chain of `compare_spt_time` after both dates parsed (or
not): `year_interval < 0` → `True`; same year with month interval in
`range(-11, 3)` → `True`; next year with `month_interval + 12 in (1, 2)` →
`True`; otherwise the implicit `None`; a `ValueError` from either `strptime`
→ `False`. -/
def compareSptCore : Option (Nat × Nat) → Option (Nat × Nat) → PyRet
  | some (ky, km), some (dy, dm) =>
    if (ky : Int) - (dy : Int) < 0 then .pyTrue
    else if (ky : Int) - (dy : Int) = 0 ∧
        (-11 ≤ (km : Int) - (dm : Int) ∧ (km : Int) - (dm : Int) < 3) then .pyTrue
    else if (ky : Int) - (dy : Int) = 1 ∧
        ((km : Int) - (dm : Int) + 12 = 1 ∨ (km : Int) - (dm : Int) + 12 = 2) then .pyTrue
    else .pyNone
  | _, _ => .pyFalse

/-- `Scheduler.compare_spt_time(kit_spt, device_spt)`, including the explicit
`return False` for an empty (falsy) argument. -/
def compareSptTime (kitSpt deviceSpt : String) : PyRet :=
  if kitSpt = "" ∨ deviceSpt = "" then .pyFalse
  else compareSptCore (strptimeYm (sptNormalize kitSpt))
    (strptimeYm (sptNormalize deviceSpt))

/-! ## C4 — `STSKit.__setup__` (`src/plugins/ohos/src/ohos/testkit/kit.py`) -/

/-- Python's `sep.join(iterable)` where the iterable is a *string*: the
separator is interleaved between the characters of the iterated string.  This
is exactly how `match.group(1).join("-01")` evaluates in the source. -/
def pyStrJoin (sep : String) (iter : String) : String :=
  String.intercalate sep (iter.data.map (fun c => String.mk [c]))

/-- `[\d]+-[\d]+` as a complete match of `q`. -/
def digitsDashDigits (q : String) : Bool :=
  match pySplit '-' q with
  | [a, b] => ¬ a.isEmpty ∧ ¬ b.isEmpty ∧ allDigits a.data ∧ allDigits b.data
  | _ => false

/-- `re.match('^[a-zA-Z\\d\\.]+_([\\d]+-[\\d]+)$', s)`, returning `group(1)`.
Neither character class can match `_`, so a successful match splits the
string at its unique underscore. -/
def stsVersionGroup (s : String) : Option String :=
  match pySplit '_' s with
  | [p, q] =>
    if ¬ p.isEmpty ∧ p.data.all (fun c => c.isAlpha ∨ c.isDigit ∨ c = '.') ∧
        digitsDashDigits q then
      some q
    else none
  | _ => none

/-- `STSKit.__setup__`: validates the device `security-patch` property against
the configured `sts-version`; `Except.error` models a raised `ParamError`.
The `device_spl` argument is the string the device property query returned
(empty string for a missing property). -/
def stsSetup (stsVersion deviceSpl : String) : Except String Unit :=
  if deviceSpl = "" then .error "device security patch invalid"
  else
    match stsVersionGroup stsVersion with
    | none => .error "sts version does not match the rule"
    | some g =>
      let stsVersionDateUser := pyStrJoin g "-01"
      let stsVersionDateKernel := pyStrJoin g "-05"
      if deviceSpl = stsVersionDateUser ∨ deviceSpl = stsVersionDateKernel then
        .ok ()
      else .error "device SPL does not match the sts version"

/-! ## C2 / C10 — `_create_empty_result_file`
(`src/plugins/ohos/src/ohos/drivers/drivers.py`) -/

/-- Python `str.replace(pat, repl)`: left-to-right, non-overlapping.  The
fuel argument (instantiated with the string length) only makes the recursion
structural; one character is consumed per unit of fuel at least, so the
`fuel = 0` default branch is unreachable from `replaceAll`. -/
def replaceAllFuel (pat repl : List Char) : Nat → List Char → List Char
  | 0, s => s
  | _ + 1, [] => []
  | n + 1, c :: rest =>
    if pat.isPrefixOf (c :: rest) ∧ pat ≠ [] then
      repl ++ replaceAllFuel pat repl n ((c :: rest).drop pat.length)
    else c :: replaceAllFuel pat repl n rest

/-- `s.replace(pat, repl)` on strings. -/
def pyReplace (s pat repl : String) : String :=
  String.mk (replaceAllFuel pat.data repl.data s.data.length s.data)

/-- The escaping chain at the top of `_create_empty_result_file`, in source
order: `"` then `<` then `>` then `&`. -/
def escapeMessage (s : String) : String :=
  pyReplace (pyReplace (pyReplace (pyReplace s "\"" "&quot;")
    "<" "&lt;") ">" "&gt;") "&" "&amp;"

/-- Entity decoding of a standard XML parser (the claim's parse-back
direction, built from the spec's words: decodes `&quot; &lt; &gt; &amp;` and
`&apos;`, scanning left to right).  Fuel as in `replaceAllFuel`. -/
def xmlDecodeFuel : Nat → List Char → List Char
  | 0, s => s
  | _ + 1, [] => []
  | n + 1, c :: rest =>
    if ("&quot;".data).isPrefixOf (c :: rest) then
      '"' :: xmlDecodeFuel n ((c :: rest).drop 6)
    else if ("&apos;".data).isPrefixOf (c :: rest) then
      '\'' :: xmlDecodeFuel n ((c :: rest).drop 6)
    else if ("&amp;".data).isPrefixOf (c :: rest) then
      '&' :: xmlDecodeFuel n ((c :: rest).drop 5)
    else if ("&lt;".data).isPrefixOf (c :: rest) then
      '<' :: xmlDecodeFuel n ((c :: rest).drop 4)
    else if ("&gt;".data).isPrefixOf (c :: rest) then
      '>' :: xmlDecodeFuel n ((c :: rest).drop 4)
    else c :: xmlDecodeFuel n rest

/-- XML attribute-value decoding on strings. -/
def xmlDecode (s : String) : String :=
  String.mk (xmlDecodeFuel s.data.length s.data)

/-- The synthesized empty-suite report content, mirroring the `file_desc.write`
calls (the wall-clock timestamp is a parameter). -/
def emptyReportXml (timeStamp filename message : String) : String :=
  "<?xml version=\"1.0\" encoding=\"UTF-8\"?>\n" ++
  "<testsuites tests=\"0\" failures=\"0\" disabled=\"0\" errors=\"0\" timestamp=\"" ++
  timeStamp ++ "\" time=\"0\" name=\"AllTests\">\n" ++
  "  <testsuite name=\"" ++ filename ++ "\" tests=\"0\" failures=\"0\" " ++
  "disabled=\"0\" errors=\"0\" time=\"0.0\" unavailable=\"1\" message=\"" ++
  message ++ "\">\n" ++
  "  </testsuite>\n" ++
  "</testsuites>\n"

/-- The filesystem visible to `_create_empty_result_file`: an association list
from path to file content; `os.path.exists` is a successful lookup. -/
abbrev FileSystem := List (String × String)

/-- `_create_empty_result_file(filepath, filename, error_message)`: escapes
the message, strips a `.hap` filename to its first dot-component, and writes
the synthesized report only when `filepath` does not already exist. -/
def createEmptyResultFile (timeStamp : String) (fs : FileSystem)
    (filepath filename errorMessage : String) : FileSystem :=
  let msg := escapeMessage errorMessage
  let fname := if (".hap".data).isSuffixOf filename.data then
      (pySplit '.' filename).headD "" else filename
  if (fs.lookup filepath).isSome then fs
  else fs ++ [(filepath, emptyReportXml timeStamp fname msg)]

/-! ## C6 / C9 — `perform_device_action`
(`src/plugins/ohos/src/ohos/environment/device.py`) -/

/-- Exception classes relevant to the decorator's `except` clauses:
`ReportException`; `ConnectionResetError`/`ConnectionRefusedError`;
`HdcError` (and subclasses); any other exception (e.g. a plain `DeviceError`
subclass none of the earlier clauses match). -/
inductive ExcClass where
  | reportExc
  | connectionErr
  | hdcErr
  | otherExc
deriving DecidableEq, Repr

/-- A raised Python exception: its matched class and a payload. -/
structure PyExc where
  cls : ExcClass
  msg : String
deriving DecidableEq, Repr

/-- Outcome of one invocation of the wrapped function. -/
inductive CallOutcome (α : Type) where
  | success (v : α)
  | raise (e : PyExc)

/-- What a call of the decorated action produced: number of invocations of
the underlying function, the returned value (`Except.error` for a propagated
exception, `.ok none` for the implicit `return None`), and the device's
recover-state flag afterwards. -/
structure ActionRun (α : Type) where
  calls : Nat
  result : Except PyExc (Option α)
  recoverState : Bool

/-- The `for _ in range(retry)` loop of `device_action`.  `f k` is the
outcome of the `k`-th invocation of the underlying function, `recover k` the
result of `self.recover_device()` tried after the `k`-th invocation raised a
connection/hdc error.  `last` is the `exception` variable; the loop ends
either by `return result`, by re-raising after a failed recovery (which also
sets the recover-state flag false), or by `raise exception` after the
attempt budget is exhausted. -/
def deviceActionLoop (f : Nat → CallOutcome α) (recover : Nat → Bool) :
    Nat → Nat → Option PyExc → ActionRun α
  | 0, calls, last =>
    { calls := calls, result := .error (last.getD ⟨.otherExc, ""⟩),
      recoverState := true }
  | n + 1, calls, _ =>
    match f calls with
    | .success v =>
      { calls := calls + 1, result := .ok (some v), recoverState := true }
    | .raise e =>
      match e.cls with
      | .reportExc => deviceActionLoop f recover n (calls + 1) (some e)
      | .connectionErr =>
        if recover calls then deviceActionLoop f recover n (calls + 1) (some e)
        else { calls := calls + 1, result := .error e, recoverState := false }
      | .hdcErr =>
        if recover calls then deviceActionLoop f recover n (calls + 1) (some e)
        else { calls := calls + 1, result := .error e, recoverState := false }
      | .otherExc => deviceActionLoop f recover n (calls + 1) (some e)

/-- `perform_device_action`'s wrapper `device_action(self, *args, **kwargs)`:
recover-state gate first, then the `abort_on_exception` single-shot path,
then `retry = tmp + 1 if tmp > 0 else 1` and the bounded retry loop. -/
def performDeviceAction (recoverState abortOnException : Bool) (retryArg : Int)
    (f : Nat → CallOutcome α) (recover : Nat → Bool) : ActionRun α :=
  if ¬ recoverState then
    { calls := 0, result := .ok none, recoverState := false }
  else if abortOnException then
    match f 0 with
    | .success v => { calls := 1, result := .ok (some v), recoverState := true }
    | .raise e => { calls := 1, result := .error e, recoverState := true }
  else
    let retry : Nat := if retryArg > 0 then (retryArg + 1).toNat else 1
    deviceActionLoop f recover retry 0 none

/-! ## C8 — `DriversThread._get_driver_request`
(`src/src/xdevice/_core/executor/concurrent.py`)

The isolation property is about Python object aliasing, so the embedding
carries an explicit heap of mutable `testargs` dictionaries.  `Config` is an
attribute bag (`_core/plugin.py` is not under `src/`; modelled from the
spec: "Configuration objects (`Config`) are deep-copied per job"); the
attribute at issue, `testargs`, is represented by a reference into the dict
heap. -/

/-- Content of a `config.testargs` dictionary. -/
abbrev TestArgs := List (String × String)

/-- A `Config` object, reduced to the attribute the claim mutates: a
reference (heap address) to its `testargs` dict. -/
structure ConfigObj where
  testargsRef : Nat
deriving DecidableEq, Repr

/-- The heap of `testargs` dictionaries; an address is an index, allocation
appends. -/
structure DictHeap where
  dicts : List TestArgs

/-- Read `config.testargs` through the reference. -/
def readTestargs (h : DictHeap) (c : ConfigObj) : TestArgs :=
  h.dicts.getD c.testargsRef []

/-- `config = Config(); config.update(copy.deepcopy(self.task.config).__dict__)`
from `_get_driver_request`: the fresh job `Config` receives a *deep copy* of
the task's config, i.e. a newly allocated `testargs` dict holding a copy of
the task's current content — never the task's own reference. -/
def getDriverRequestConfig (h : DictHeap) (task : ConfigObj) :
    ConfigObj × DictHeap :=
  let content := readTestargs h task
  (⟨h.dicts.length⟩, ⟨h.dicts ++ [content]⟩)

/-- A driver thread mutating its own `config.testargs` in place (e.g. the
history-retry narrowing `test_args["test"] = test_params`). -/
def mutateTestargs (h : DictHeap) (c : ConfigObj) (f : TestArgs → TestArgs) :
    DictHeap :=
  ⟨h.dicts.set c.testargsRef (f (readTestargs h c))⟩

/-! ## C5 — parsers (`src/plugins/ohos/src/ohos/parser/parser_lite.py`)

The two parsers named by the claim are embedded as explicit state machines:
`CppTestParserLite` (GTest markers) and `JSUnitParserLite` (ACE/JS console
markers).  Listener delivery: each `for listener in
self.get_listeners(): listener.__started__/__ended__(...)` loop hands every
attached listener a copy of the same result object, so the embedding records
one broadcast event stream — the sequence each individual listener
receives. -/

/-! ### Substring utilities (Python `in`, `index`, `split`, `strip`, …) -/

/-- `sub in hay` (substring containment). -/
def containsSub : List Char → List Char → Bool
  | [], sub => sub.isEmpty
  | c :: rest, sub => sub.isPrefixOf (c :: rest) || containsSub rest sub

/-- Suffix of `hay` starting at the first occurrence of `sub`
(`hay[hay.index(sub):]`); `[]` when absent. -/
def fromFirstSub : List Char → List Char → List Char
  | [], _ => []
  | c :: rest, sub =>
    if sub.isPrefixOf (c :: rest) then c :: rest else fromFirstSub rest sub

/-- `hay[hay.index(sub) + len(sub):]`. -/
def afterFirstSub (hay sub : List Char) : List Char :=
  (fromFirstSub hay sub).drop sub.length

/-- Suffix after the *last* occurrence of `sub` (the span-end of a greedy
`re.match('.*' + sub)`), `none` when absent. -/
def afterLastSub : List Char → List Char → Option (List Char)
  | [], _ => none
  | c :: rest, sub =>
    match afterLastSub rest sub with
    | some r => some r
    | none =>
      if sub.isPrefixOf (c :: rest) then some ((c :: rest).drop sub.length)
      else none

/-- Python `str.strip()` (whitespace both ends). -/
def stripWs (cs : List Char) : List Char :=
  ((cs.dropWhile Char.isWhitespace).reverse.dropWhile Char.isWhitespace).reverse

/-- `strip` on `String`. -/
def pyStrip (s : String) : String := String.mk (stripWs s.data)

/-- Python `str.strip(c)` for a single strip character. -/
def stripChar (c : Char) (cs : List Char) : List Char :=
  ((cs.dropWhile (· = c)).reverse.dropWhile (· = c)).reverse

/-- Python `str.split(sep)` for a multi-character separator (leftmost,
non-overlapping).  Fuel as in `replaceAllFuel`; unreachable for
`fuel = length`. -/
def splitOnSubFuel (sep : List Char) : Nat → List Char → List (List Char)
  | 0, s => [s]
  | _ + 1, [] => [[]]
  | n + 1, c :: rest =>
    if sep.isPrefixOf (c :: rest) ∧ sep ≠ [] then
      [] :: splitOnSubFuel sep n ((c :: rest).drop sep.length)
    else
      match splitOnSubFuel sep n rest with
      | [] => [[c]]
      | h :: t => (c :: h) :: t

/-- `str.split(sep)` wrapper. -/
def splitOnSub (sep hay : List Char) : List (List Char) :=
  splitOnSubFuel sep hay.length hay

/-- Leading run of decimal digits. -/
def takeDigits (cs : List Char) : List Char := cs.takeWhile (fun c => c.isDigit)

/-! ### Regex fragments used by the parsers -/

/-- After a `" Running "` occurrence: `(\d+) test[s]? from ` followed by
anything — the tail of `r'.* Running (\d+) test[s]? from .*'`. -/
def numTestsFromHere (cs : List Char) : Option Nat :=
  let ds := takeDigits cs
  if ds.isEmpty then none
  else
    let rest := cs.drop ds.length
    if (" tests from ".data).isPrefixOf rest ∨ (" test from ".data).isPrefixOf rest then
      some (digitsVal ds)
    else none

/-- `re.match(r'.* Running (\d+) test[s]? from .*', message)`, returning the
captured group; the greedy `.*` makes the rightmost matching occurrence
bind the group. -/
def matchRunningTests : List Char → Option Nat
  | [] => none
  | c :: rest =>
    match matchRunningTests rest with
    | some v => some v
    | none =>
      if (" Running ".data).isPrefixOf (c :: rest) then
        numTestsFromHere ((c :: rest).drop (" Running ".data.length))
      else none

/-- `re.match(r'(\d+) test[s]? from (.*)', message)` (anchored):
`(count, group 2)`. -/
def matchSuiteStart (cs : List Char) : Option (Nat × List Char) :=
  let ds := takeDigits cs
  if ds.isEmpty then none
  else
    let rest := cs.drop ds.length
    if (" tests from ".data).isPrefixOf rest then
      some (digitsVal ds, rest.drop (" tests from ".data.length))
    else if (" test from ".data).isPrefixOf rest then
      some (digitsVal ds, rest.drop (" test from ".data.length))
    else none

/-- At the head of `cs`: `\(\d+ ms total\)`, returning the number. -/
def msTotalHere (cs : List Char) : Option Nat :=
  match cs with
  | '(' :: rest =>
    let ds := takeDigits rest
    if ds.isEmpty then none
    else if (" ms total)".data).isPrefixOf (rest.drop ds.length) then
      some (digitsVal ds)
    else none
  | _ => none

/-- `re.match(r'.*\((\d+) ms total\)', message)`: rightmost occurrence binds
the group (greedy `.*`). -/
def matchMsTotal : List Char → Option Nat
  | [] => none
  | c :: rest =>
    match matchMsTotal rest with
    | some v => some v
    | none => if c = '(' then msTotalHere (c :: rest) else none

/-- `re.match(r'(.*) (\(\d+ ms total\))', stripped_line)` as a Boolean
condition: the string contains a space followed by `(\d+ ms total)`. -/
def hasSpaceMsTotal : List Char → Bool
  | [] => false
  | c :: rest =>
    (c = ' ' ∧ (msTotalHere rest).isSome) || hasSpaceMsTotal rest

/-- At the head of `cs`: `\(\d+ ms\)` then the rest (group 3). -/
def msAnnotHere (cs : List Char) : Option (Nat × List Char) :=
  match cs with
  | '(' :: rest =>
    let ds := takeDigits rest
    if ds.isEmpty then none
    else if (" ms)".data).isPrefixOf (rest.drop ds.length) then
      some (digitsVal ds, rest.drop (ds.length + " ms)".data.length))
    else none
  | _ => none

/-- `re.match(r'(.*) \((\d+) ms\)(.*)', message)`: rightmost occurrence of
`" (N ms)"` splits the string into `(group 1, N, group 3)`. -/
def matchMsAnnot : List Char → Option (List Char × Nat × List Char)
  | [] => none
  | c :: rest =>
    match (matchMsAnnot rest).map (fun r => (c :: r.1, r.2.1, r.2.2)) with
    | some r => some r
    | none =>
      if c = ' ' then (msAnnotHere rest).map (fun r => ([], r.1, r.2)) else none

/-- `re.match(r"(.*The .* is .*)", line)`: the line contains `"The "` with a
later `" is "`. -/
def hasTheIs : List Char → Bool
  | [] => false
  | c :: rest =>
    (("The ".data).isPrefixOf (c :: rest) ∧
      containsSub ((c :: rest).drop 4) (" is ".data)) || hasTheIs rest

/-- The anchored timestamp regex of `JSUnitParserLite`:
`r"(\d{1,2}-\d{1,2}\s\d{1,2}:\d{1,2}:\d{1,2}\.\d{3}) "`. -/
def matchTimestampPrefix (cs : List Char) : Bool :=
  let step12 := fun (cs : List Char) (lit : Char) =>
    let ds := takeDigits cs
    if (ds.length = 1 ∨ ds.length = 2) ∧
        ((cs.drop ds.length).headD ' ' = lit ∧ (cs.drop ds.length) ≠ []) then
      some ((cs.drop ds.length).drop 1)
    else none
  match step12 cs '-' with
  | none => false
  | some cs =>
    match cs with
    | [] => false
    | w :: cs' =>
      let afterDay :=
        let ds := takeDigits (w :: cs')
        if ds.length = 1 ∨ ds.length = 2 then
          match ((w :: cs').drop ds.length) with
          | w' :: cs'' => if w'.isWhitespace then some cs'' else none
          | [] => none
        else none
      match afterDay with
      | none => false
      | some cs =>
        match step12 cs ':' with
        | none => false
        | some cs =>
          match step12 cs ':' with
          | none => false
          | some cs =>
            match step12 cs '.' with
            | none => false
            | some cs =>
              (cs.take 3).length = 3 ∧ allDigits (cs.take 3) ∧
                (cs.drop 3).headD 'x' = ' '

/-! ### Canonical result model and `StateRecorder`

`_core/executor/listener.py` is not under `src/`; these are
modelled from the spec: `CaseResult` (class name, test name, status code,
run time, stack trace, ordinal "current" index), `SuiteResult` (name, test
count, run time, completion flag), `SuitesResult` (aggregate name, test
count, run time, completion flag, product-info dict), and `StateRecorder`,
"a small state machine tracking are-we-inside-a-suites-run / inside-a-suite
/ inside-a-test with reset semantics": `suite(reset)` / `get_suites(reset)`
/ `test(reset)` return the current (optionally freshly reset) mutable
object, creating it when absent, and the `*_is_*` queries ask whether the
corresponding scope is open. -/

/-- Status codes of the core `ResultCode` enum (modelled from the spec). -/
def passedCode : Int := 0
def failedCode : Int := 1
def skippedCode : Int := 2
def blockedCode : Int := 3

structure CaseResultV where
  testClass : String := ""
  testName : String := ""
  code : Int := -1010
  runTime : Int := 0
  current : Nat := 0
  stacktrace : String := ""
  isStarted : Bool := false
  isCompleted : Bool := false
deriving DecidableEq, Repr

/-- "Inside a test": started and not yet completed. -/
def CaseResultV.isRunning (t : CaseResultV) : Bool :=
  t.isStarted ∧ ¬ t.isCompleted

structure SuiteResultV where
  suiteName : String := ""
  testNum : Nat := 0
  runTime : Nat := 0
  isCompleted : Bool := false
deriving DecidableEq, Repr

structure SuitesResultV where
  suitesName : String := ""
  testNum : Nat := 0
  runTime : Nat := 0
  isCompleted : Bool := false
  productInfo : List (String × String) := []
deriving DecidableEq, Repr

structure StateRecorder where
  currentSuites : Option SuitesResultV := none
  currentSuite : Option SuiteResultV := none
  currentTest : Option CaseResultV := none
  runningTestIndex : Nat := 0
  traceLogs : List String := []
deriving Repr

/-- `get_suites(reset=...)`: reset or create-if-absent, then return. -/
def StateRecorder.getSuites (st : StateRecorder) (reset : Bool) :
    SuitesResultV × StateRecorder :=
  match reset, st.currentSuites with
  | false, some s => (s, st)
  | _, _ => ({}, { st with currentSuites := some {} })

/-- `suite(reset=...)`. -/
def StateRecorder.suite (st : StateRecorder) (reset : Bool) :
    SuiteResultV × StateRecorder :=
  match reset, st.currentSuite with
  | false, some s => (s, st)
  | _, _ => ({}, { st with currentSuite := some {} })

/-- `test(reset=...)`. -/
def StateRecorder.test (st : StateRecorder) (reset : Bool) :
    CaseResultV × StateRecorder :=
  match reset, st.currentTest with
  | false, some t => (t, st)
  | _, _ => ({}, { st with currentTest := some {} })

/-- The suites scope is open. -/
def StateRecorder.suitesIsStarted (st : StateRecorder) : Bool :=
  st.currentSuites.isSome

/-- A suite scope is open. -/
def StateRecorder.suiteIsRunning (st : StateRecorder) : Bool :=
  st.currentSuite.isSome

/-- "Inside a test". -/
def StateRecorder.testIsRunning (st : StateRecorder) : Bool :=
  match st.currentTest with
  | some t => t.isRunning
  | none => false

/-- One lifecycle notification as delivered to each attached listener. -/
inductive PEvent where
  | suitesStarted (s : SuitesResultV)
  | suitesEnded (s : SuitesResultV)
  | suiteStarted (s : SuiteResultV)
  | suiteEnded (s : SuiteResultV)
  | caseStarted (t : CaseResultV)
  | caseEnded (t : CaseResultV)
  | caseFailed (t : CaseResultV)
deriving DecidableEq, Repr

/-- Number of suite-ended notifications in a stream. -/
def countSuiteEnded (evs : List PEvent) : Nat :=
  evs.countP (fun e => match e with | .suiteEnded _ => true | _ => false)

/-- Number of suites-ended notifications in a stream. -/
def countSuitesEnded (evs : List PEvent) : Nat :=
  evs.countP (fun e => match e with | .suitesEnded _ => true | _ => false)

/-! ### `CppTestParserLite`

`Option` models a Python exception escaping the handler (caught and logged
by `ShellHandler.__read__`, but terminating that line's processing). -/

/-- Parser-instance state: the `StateRecorder`, the `suite_name` attribute
(assigned by the driver), `product_info`, the `is_params` flag, and the
broadcast event stream seen by every listener. -/
structure CppParserState where
  sm : StateRecorder := {}
  suiteName : String := ""
  productInfo : List (String × String) := []
  isParams : Bool := false
  events : List PEvent := []
deriving Repr

/-- `parse_test_description(message)`: strip a trailing `(N ms)` annotation
when present, `rsplit` the remainder on the last dot into class and test
name, and trim at spaces.  `none` is the `ValueError` Python raises when the
message holds no dot. -/
def cppParseTestDescription (message : String) : Option (String × String × Nat) :=
  let rsplitDot := fun (cs : List Char) =>
    match splitOnChar '.' cs with
    | [] => none
    | [_] => none
    | parts =>
      some (String.intercalate "." ((parts.dropLast).map String.mk),
        String.mk (parts.getLastD []))
  let post := fun (tc tn : String) (rt : Nat) =>
    (((pySplit ' ' tc).getLastD ""), ((pySplit ' ' tn).headD ""), rt)
  match matchMsAnnot message.data with
  | some (g1, n, _) =>
    (rsplitDot g1).map (fun p => post p.1 p.2 n)
  | none =>
    (rsplitDot message.data).map (fun p => post p.1 p.2 0)

/-- `handle_test_started_tag(message)`. -/
def cppHandleTestStartedTag (ps : CppParserState) (message : String) :
    Option CppParserState := do
  let (tc, tn, _) ← cppParseTestDescription message
  let (_, sm) := ps.sm.test true
  let t : CaseResultV := { testClass := tc, testName := tn, isStarted := true }
  some { ps with
    sm := { sm with currentTest := some t },
    events := ps.events ++ [.caseStarted t] }

/-- `handle_test_ended_tag(message, test_status)`. -/
def cppHandleTestEndedTag (ps : CppParserState) (message : String)
    (status : Int) : Option CppParserState := do
  let (tc, tn, rt) ← cppParseTestDescription message
  let (t0, sm) := ps.sm.test false
  let t1 := { t0 with runTime := (rt : Int), code := status }
  if ¬ t1.isRunning then
    -- "Test has no start tag when trying to end test": log and return
    some { ps with sm := { sm with currentTest := some t1 } }
  else
    let foundUnexpected := t1.testClass ≠ tc ∨ t1.testName ≠ tn
    let t2 := { t1 with current := sm.runningTestIndex + 1, isCompleted := true }
    let t3 := if foundUnexpected then { t2 with code := failedCode } else t2
    some { ps with
      sm := { sm with
        currentTest := some t3,
        runningTestIndex := sm.runningTestIndex + 1 },
      events := ps.events ++ [.caseEnded t3] }

/-- `fake_run_marker(message)`: `re.compile(" +").split(message)` yields a
*list*, which is then fed to `handle_test_started_tag` and on into
`re.match`, raising `TypeError` — modelled as the exception outcome. -/
def cppFakeRunMarker (_ps : CppParserState) (_message : String) :
    Option CppParserState :=
  none

/-- `append_test_output(message)`. -/
def cppAppendTestOutput (ps : CppParserState) (message : String) :
    CppParserState :=
  let (t, sm) := ps.sm.test false
  let st := if t.stacktrace ≠ "" then t.stacktrace ++ "\r\n" else t.stacktrace
  let t' := { t with stacktrace := st ++ message }
  { ps with sm := { sm with currentTest := some t' } }

/-- `process_test(line)`: the `[  SKIPPED ]` / `[       OK ]` / `[    OK    ]`
/ `[  FAILED  ]` / `[ TIMEOUT  ]` chain. -/
def cppProcessTest (ps : CppParserState) (line : String) :
    Option CppParserState :=
  let msgAfter := fun (tag : String) =>
    String.mk (stripWs (afterFirstSub line.data tag.data))
  if containsSub line.data ("[  SKIPPED ]".data) then
    if ¬ ps.sm.testIsRunning then some ps
    else cppHandleTestEndedTag ps (msgAfter "[  SKIPPED ]") skippedCode
  else if containsSub line.data ("[       OK ]".data) then
    if ¬ ps.sm.testIsRunning then some ps
    else cppHandleTestEndedTag ps (msgAfter "[       OK ]") passedCode
  else if containsSub line.data ("[    OK    ]".data) then do
    let ps' ← cppFakeRunMarker ps (msgAfter "[    OK    ]")
    cppHandleTestEndedTag ps' (msgAfter "[    OK    ]") passedCode
  else if containsSub line.data ("[  FAILED  ]".data) then
    if ¬ ps.sm.suiteIsRunning then some ps
    else if ¬ ps.sm.testIsRunning then do
      let ps' ← cppFakeRunMarker ps (msgAfter "[  FAILED  ]")
      cppHandleTestEndedTag ps' (msgAfter "[  FAILED  ]") failedCode
    else cppHandleTestEndedTag ps (msgAfter "[  FAILED  ]") failedCode
  else if containsSub line.data ("[ TIMEOUT  ]".data) then do
    let ps' ← cppFakeRunMarker ps (msgAfter "[ TIMEOUT  ]")
    cppHandleTestEndedTag ps' (msgAfter "[ TIMEOUT  ]") failedCode
  else if ps.sm.testIsRunning then some (cppAppendTestOutput ps line)
  else some ps

/-- `handle_suites_started_tag(message)` (called with the whole line). -/
def cppHandleSuitesStartedTag (ps : CppParserState) (line : String) :
    CppParserState :=
  let (_, sm) := ps.sm.getSuites true
  match matchRunningTests line.data with
  | some n =>
    let ts : SuitesResultV :=
      { suitesName := ps.suiteName, testNum := n, productInfo := ps.productInfo }
    { ps with
      sm := { sm with currentSuites := some ts },
      events := ps.events ++ [.suitesStarted ts] }
  | none => { ps with sm := sm }

/-- `handle_suite_started_tag(message)`. -/
def cppHandleSuiteStartedTag (ps : CppParserState) (message : String) :
    CppParserState :=
  let (_, sm) := ps.sm.suite true
  match matchSuiteStart message.data with
  | some (n, nm) =>
    let s : SuiteResultV := { suiteName := String.mk nm, testNum := n }
    { ps with
      sm := { sm with currentSuite := some s },
      events := ps.events ++ [.suiteStarted s] }
  | none => { ps with sm := sm }

/-- `handle_suite_ended_tag(message)`. -/
def cppHandleSuiteEndedTag (ps : CppParserState) (message : String) :
    CppParserState :=
  let (s0, sm) := ps.sm.suite false
  let s1 := match matchMsTotal message.data with
    | some rt => { s0 with runTime := rt }
    | none => s0
  let s2 := { s1 with isCompleted := true }
  { ps with
    sm := { sm with currentSuite := some s2, runningTestIndex := 0 },
    events := ps.events ++ [.suiteEnded s2] }

/-- `handle_suites_ended_tag(message)`. -/
def cppHandleSuitesEndedTag (ps : CppParserState) (message : String) :
    CppParserState :=
  let (ss0, sm) := ps.sm.getSuites false
  let ss1 := match matchMsTotal message.data with
    | some rt => { ss0 with runTime := rt }
    | none => ss0
  let ss2 := { ss1 with isCompleted := true }
  { ps with
    sm := { sm with currentSuites := some ss2 },
    events := ps.events ++ [.suitesEnded ss2] }

/-- `_process_informational_line(line)`. -/
def cppProcessInformationalLine (ps : CppParserState) (line : String) :
    CppParserState :=
  let message := String.mk (stripWs
    (line.data.drop ("[----------]".data.length)))
  if hasSpaceMsTotal (stripWs line.data) then
    cppHandleSuiteEndedTag ps message
  else if (matchSuiteStart message.data).isSome then
    cppHandleSuiteStartedTag ps message
  else ps

/-- `_process_test_run_line(line)`. -/
def cppProcessTestRunLine (ps : CppParserState) (line : String) :
    CppParserState :=
  if ¬ ps.sm.suitesIsStarted then ps
  else
    cppHandleSuitesEndedTag ps
      (String.mk (stripWs (line.data.drop ("[==========]".data.length))))

/-- `handle_product_info(message, product_info)` with its caller's guard
already established (`"The "` with a later `" is "` occurs in the line). -/
def cppHandleProductInfo (ps : CppParserState) (line : String) :
    CppParserState :=
  let message := fromFirstSub line.data ("The".data)
  let items := splitOnSub (" is ".data) (message.drop ("The ".data.length))
  let key := String.mk (stripWs (items.headD []))
  let value := String.mk
    (stripChar ']' (stripChar '[' (stripWs (items.getD 1 []))))
  if (ps.productInfo.lookup key).isSome then ps
  else { ps with productInfo := ps.productInfo ++ [(key, value)] }

/-- `CppTestParserLite.parse(line)`. -/
def cppParse (ps : CppParserState) (line : String) : Option CppParserState :=
  let ps :=
    if containsSub line.data ("To Obtain Product Params Start".data) then
      { ps with isParams := true }
    else if containsSub line.data ("To Obtain Product Params End".data) then
      { ps with isParams := false }
    else ps
  let ps :=
    if hasTheIs line.data ∧ ps.isParams then cppHandleProductInfo ps line
    else ps
  if ps.sm.suitesIsStarted ∨ containsSub line.data ("[==========]".data) then
    if containsSub line.data ("[==========] Running".data) then
      some (cppHandleSuitesStartedTag ps line)
    else if containsSub line.data ("[----------]".data) then
      some (cppProcessInformationalLine ps line)
    else if containsSub line.data ("[==========]".data) then
      some (cppProcessTestRunLine ps line)
    else if containsSub line.data ("[ RUN      ]".data) then
      cppHandleTestStartedTag ps
        (String.mk (stripWs (afterFirstSub line.data ("[ RUN      ]".data))))
    else cppProcessTest ps line
  else some ps

/-- `CppTestParserLite.__process__(lines)`. -/
def cppProcessLines (ps : CppParserState) (lines : List String) :
    Option CppParserState :=
  let ps := if ¬ ps.sm.suitesIsStarted then
      { ps with sm := { ps.sm with traceLogs := ps.sm.traceLogs ++ lines } }
    else ps
  go ps lines
where
  go (ps : CppParserState) : List String → Option CppParserState
    | [] => some ps
    | l :: ls => do go (← cppParse ps l) ls

/-- `CppTestParserLite.__done__()`: force-close the suite (one suite-ended
notification per listener), reset the running index, then — only when the
suites aggregate carries a non-empty name — emit the suites-ended
notification and clear the suites scope. -/
def cppDone (ps : CppParserState) : CppParserState :=
  let (s0, sm0) := ps.sm.suite false
  let s1 := { s0 with isCompleted := true }
  let sm1 := { sm0 with currentSuite := some s1, runningTestIndex := 0 }
  let ps1 : CppParserState := { ps with
    sm := sm1,
    events := ps.events ++ [PEvent.suiteEnded s1] }
  let (ss, sm2) := ps1.sm.getSuites false
  if ss.suitesName = "" then { ps1 with sm := sm2 }
  else
    { ps1 with
      sm := { sm2 with currentSuites := none },
      events := ps1.events ++ [PEvent.suitesEnded ss] }

/-! ### `JSUnitParserLite`

Per-test duration in this parser is computed by `time.mktime`-differencing
the log-line timestamps of the current and previous line (with the host's
current year substituted).  That wall-clock arithmetic is abstracted into the
`durOracle` parameter — a function of the previous and current raw lines
yielding the millisecond difference — since C-library time semantics are
outside the embedding; everything else is from the source. -/

/-- Parser-instance state: recorder, the `suites_name` attribute, the
`last_line` class attribute, and the broadcast event stream. -/
structure JsParserState where
  sm : StateRecorder := {}
  suitesName : String := ""
  lastLine : String := ""
  events : List PEvent := []
deriving Repr

/-- `handle_suites_started_tag()`. -/
def jsHandleSuitesStartedTag (ps : JsParserState) : JsParserState :=
  let (_, sm) := ps.sm.getSuites true
  let ts : SuitesResultV := { suitesName := ps.suitesName, testNum := 0 }
  { ps with
    sm := { sm with currentSuites := some ts },
    events := ps.events ++ [PEvent.suitesStarted ts] }

/-- `handle_suites_ended_tag()`. -/
def jsHandleSuitesEndedTag (ps : JsParserState) : JsParserState :=
  let (ss0, sm) := ps.sm.getSuites false
  let ss1 := { ss0 with isCompleted := true }
  { ps with
    sm := { sm with currentSuites := some ss1 },
    events := ps.events ++ [PEvent.suitesEnded ss1] }

/-- `handle_suite_started_tag(message)`: the suite name is everything after
the *last* `[suite start]` (span-end of the greedy
`re.match(r".*\[suite start\]", message)`). -/
def jsHandleSuiteStartedTag (ps : JsParserState) (message : String) :
    JsParserState :=
  let (_, sm) := ps.sm.suite true
  let nm := (afterLastSub message.data ("[suite start]".data)).getD []
  let s : SuiteResultV := { suiteName := String.mk nm, testNum := 0 }
  { ps with
    sm := { sm with currentSuite := some s },
    events := ps.events ++ [PEvent.suiteStarted s] }

/-- `handle_suite_ended_tag()`. -/
def jsHandleSuiteEndedTag (ps : JsParserState) : JsParserState :=
  let (s0, sm0) := ps.sm.suite false
  let (ss0, sm1) := sm0.getSuites false
  let ss1 := { ss0 with runTime := ss0.runTime + s0.runTime }
  let s1 := { s0 with isCompleted := true }
  { ps with
    sm := { sm1 with currentSuite := some s1, currentSuites := some ss1 },
    events := ps.events ++ [PEvent.suiteEnded s1] }

/-- `parse_test_description(message)` minus the duration arithmetic: the
message must carry an anchored timestamp (and so must the stripped previous
line), the text after the first `[Console Info]` is stripped and must start
with `[pass]` or `[fail]`; returns the test name and status code.  `none` is
the `AttributeError` raised on a failed anchored `re.match`. -/
def jsParseTestDescription (lastLine message : String) :
    Option (String × Int) :=
  let filterMessage :=
    stripWs ((splitOnSub ("[Console Info]".data) message.data).getD 1 [])
  if ¬ (matchTimestampPrefix message.data ∧
      matchTimestampPrefix (stripWs lastLine.data)) then none
  else if ("[pass]".data).isPrefixOf filterMessage then
    some (String.mk (filterMessage.drop 6), passedCode)
  else if ("[fail]".data).isPrefixOf filterMessage then
    some (String.mk (filterMessage.drop 6), failedCode)
  else none

/-- `handle_one_test_tag(message)`. -/
def jsHandleOneTestTag (durOracle : String → String → Int)
    (ps : JsParserState) (message : String) : Option JsParserState := do
  let (tn, status) ← jsParseTestDescription ps.lastLine message
  let runTime := durOracle ps.lastLine message
  let (_, sm0) := ps.sm.test true
  let (s0, sm1) := sm0.suite false
  let t : CaseResultV :=
    { testClass := s0.suiteName, testName := tn, runTime := runTime,
      code := status, current := sm1.runningTestIndex + 1, isStarted := true }
  let s1 := { s0 with runTime := s0.runTime + runTime.toNat }
  let evs0 := ps.events ++ [PEvent.caseStarted t]
  let (ss0, sm2) := sm1.getSuites false
  let evs1 := if status = failedCode then evs0 ++ [PEvent.caseFailed t] else evs0
  let t1 := { t with isCompleted := true }
  let s2 := { s1 with testNum := s1.testNum + 1 }
  let ss1 := { ss0 with testNum := ss0.testNum + 1 }
  some { ps with
    sm := { sm2 with
      currentTest := some t1,
      currentSuite := some s2,
      currentSuites := some ss1,
      runningTestIndex := sm2.runningTestIndex + 1 },
    events := evs1 ++ [PEvent.caseEnded t1] }

/-- `JSUnitParserLite.parse(line)`: dispatch on the ACE console marker plus
the bracketed suite/test tokens; `last_line` is updated at the end of the
guarded block. -/
def jsParse (durOracle : String → String → Int) (ps : JsParserState)
    (line : String) : Option JsParserState := do
  if (ps.sm.suitesIsStarted ∨
        containsSub line.data ("[start] start run suites".data)) ∧
      containsSub line.data ("[Console Info]".data) then
    let ps' ←
      if containsSub line.data ("[start] start run suites".data) then
        some (jsHandleSuitesStartedTag ps)
      else if ("[end] run suites end".data).isSuffixOf line.data then
        some (jsHandleSuitesEndedTag ps)
      else if containsSub line.data ("[suite start]".data) then
        some (jsHandleSuiteStartedTag ps (pyStrip line))
      else if ("[suite end]".data).isSuffixOf line.data then
        some (jsHandleSuiteEndedTag ps)
      else if containsSub line.data ("[pass]".data) ∨
          containsSub line.data ("[fail]".data) then
        jsHandleOneTestTag durOracle ps (pyStrip line)
      else some ps
    some { ps' with lastLine := line }
  else some ps

/-- `JSUnitParserLite.__process__(lines)`. -/
def jsProcessLines (durOracle : String → String → Int) (ps : JsParserState)
    (lines : List String) : Option JsParserState :=
  let ps := if ¬ ps.sm.suitesIsStarted then
      { ps with sm := { ps.sm with traceLogs := ps.sm.traceLogs ++ lines } }
    else ps
  go ps lines
where
  go (ps : JsParserState) : List String → Option JsParserState
    | [] => some ps
    | l :: ls => do go (← jsParse durOracle ps l) ls

/-- `JSUnitParserLite.__done__()` is literally `pass`: no state change, no
events. -/
def jsDone (ps : JsParserState) : JsParserState :=
  ps

/-! ## C1 — `CppTestDriver` rerun completeness
(`src/plugins/ohos/src/ohos/drivers/drivers.py`)

The driver-side control flow (`_run_with_rerun`, `_rerun_all`,
`_rerun_serially`, `RemoteCppTestRunner.rerun` with its shared
`rerun_attempt = FAILED_RUN_TEST_ATTEMPTS = 3` budget) is embedded from the
source.  Three collaborators live in `_core/executor/listener.py`, which is
not under `src/`, and are modelled from the spec:

* `TestDescription` — "a (class_name, test_name) pair";
* `TestDescription.remove_test` — "a class method that subtracts an
  observed-set from an expected-set";
* `CollectingTestListener` — "pure in-memory accumulator of
  `TestDescription` keyed off case events, de-duplicating by identity".

The device execution plus the common `CppTest` parser (also not under
`src/`) are modelled as an oracle `oracle k F`: the de-duplicated-by-arrival
list of tests observed during the `k`-th shell invocation, where `F` is the
set of tests the invocation's command line selects (`--gtest_filter`, or the
binary's full expected set when no filter argument is set).  For each
observed test the parser delivers one `CaseResult` to the attached
listeners; `mark_test_as_blocked` (modelled from the spec: "parsers expose a
mark-as-failed/blocked hook used by driver rerun logic to force a synthetic
failed/blocked result") delivers exactly one synthesized blocked
`CaseResult`. -/

/-- Modelled from the spec: `TestDescription`, the (class, test) pair used to
diff expected against observed tests. -/
structure TestDescription where
  className : String
  testName : String
deriving DecidableEq, Repr

/-- Modelled from the spec: `TestDescription.remove_test(expected, observed)`
subtracts the observed set from the expected set. -/
def removeTest (expected observed : List TestDescription) :
    List TestDescription :=
  expected.filter (fun t => ¬ observed.contains t)

/-- Modelled from the spec: a `CollectingTestListener` accumulates the
`TestDescription`s of delivered case results, de-duplicating by identity in
arrival order. -/
def collectUnique (observed : List TestDescription) : List TestDescription :=
  observed.foldl (fun acc t => if acc.contains t then acc else acc ++ [t]) []

/-- One `CaseResult` delivery to the caller's listeners: a result for an
actually-executed test, or the synthesized blocked result of
`mark_test_as_blocked`. -/
inductive RunEvent where
  | observedCase (t : TestDescription)
  | blockedCase (t : TestDescription)
deriving DecidableEq, Repr

/-- `FAILED_RUN_TEST_ATTEMPTS` (drivers.py). -/
def failedRunTestAttempts : Nat := 3

/-- `_rerun_serially` driving `RemoteCppTestRunner.rerun(listener, test)` for
each remaining test: while the shared `rerun_attempt` budget is non-zero the
single-test invocation runs (`--gtest_filter=class.test`); if its collecting
listener saw nothing, the budget is decremented and the test is marked
blocked (`finally` branch); once the budget is exhausted every further test
is marked blocked without executing. -/
def rerunSerially (oracle : Nat → List TestDescription → List TestDescription) :
    Nat → Nat → List TestDescription → List RunEvent
  | _, _, [] => []
  | attempt, k, t :: rest =>
    if attempt ≠ 0 then
      let obs := oracle k [t]
      let tracker := collectUnique obs
      if tracker.isEmpty then
        obs.map RunEvent.observedCase ++ [RunEvent.blockedCase t] ++
          rerunSerially oracle (attempt - 1) (k + 1) rest
      else
        obs.map RunEvent.observedCase ++ rerunSerially oracle attempt (k + 1) rest
    else
      RunEvent.blockedCase t :: rerunSerially oracle 0 k rest

/-- `_rerun_all(expected_tests, listener)`: one bulk rerun with
`--gtest_filter` set to the joined remaining tests (an *empty* remaining list
joins to the empty string, which `add_instrumentation_arg` ignores, so the
whole binary — `expectedFull` — runs); if still short, diff again and fall
back to the serial rerun. -/
def rerunAll (oracle : Nat → List TestDescription → List TestDescription)
    (k : Nat) (remaining expectedFull : List TestDescription) :
    List RunEvent :=
  let filter := if remaining.isEmpty then expectedFull else remaining
  let obs := oracle k filter
  let tracker := collectUnique obs
  let evs := obs.map RunEvent.observedCase
  if tracker.length < remaining.length then
    evs ++ rerunSerially oracle failedRunTestAttempts (k + 1)
      (removeTest remaining tracker)
  else evs

/-- `_run_with_rerun(listener, expected_tests)`: initial full run (collecting
listener alongside the caller's listeners), then — when fewer tests were
observed than expected — diff and either the bulk (`rerun_all = True`,
the constructor default) or the serial rerun path. -/
def runWithRerun (oracle : Nat → List TestDescription → List TestDescription)
    (rerunAllFlag : Bool) (expected : List TestDescription) : List RunEvent :=
  let obs := oracle 0 expected
  let tracker := collectUnique obs
  let evs := obs.map RunEvent.observedCase
  if tracker.length < expected.length then
    if rerunAllFlag then
      evs ++ rerunAll oracle 1 (removeTest expected tracker) expected
    else
      evs ++ rerunSerially oracle failedRunTestAttempts 1
        (removeTest expected tracker)
  else evs

end Xdevice

/-! ### Theorems for C7, C3, C4 -/

open Xdevice

/-- **C7** Device allow-list ordering: with the global device filter
`["B", "A", "C"]`, appending devices in arrival order A, C, B, D via
`append_device_by_sort` yields the managed list ordered B, A, C, D —
filtered devices sorted by filter position, the unfiltered device at the
end. -/
theorem append_device_by_sort_ordering :
    ["A", "C", "B", "D"].foldl (appendDeviceBySort ["B", "A", "C"]) [] =
      ["B", "A", "C", "D"] := by
  decide

/-- **C3 counterexample**: the claim evaluates `compare_spt_time` at kit
arguments that keep the `"X_"` prefix, e.g. `compare_spt_time("X_2024-03",
"2024-01")`, and asserts the result `True`; on the code, `strptime("X_2024-03",
"%Y-%m")` raises `ValueError` and the function returns `False` on both of the
claim's supposedly-true inputs. -/
theorem compare_spt_time_prefix_counterexample :
    compareSptTime "X_2024-03" "2024-01" = PyRet.pyFalse ∧
      compareSptTime "X_2024-03" "2023-12" = PyRet.pyFalse := by
  constructor <;> decide

/-- **C3 (amended)**: for patch strings in plain `YYYY-MM` form,
`compare_spt_time("2024-03", "2024-01")` is `True`;
`compare_spt_time("2024-01", "2023-12")` is `True` (prior-year boundary,
`month_interval + 12 = 1`); `compare_spt_time("2024-07", "2024-01")` falls
through every branch and returns `None` (falsy, so the caller rejects);
`compare_spt_time("2024-03", "2023-12")` also returns `None`
(`month_interval + 12 = 3` is outside `(1, 2)`); and for every pair of
same-year dates the function returns `True` exactly when the month interval
lies in the window `-11 ≤ interval ≤ 2`, both ends inclusive, `3` excluded. -/
theorem compare_spt_time_boundaries :
    compareSptTime "2024-03" "2024-01" = PyRet.pyTrue ∧
    compareSptTime "2024-01" "2023-12" = PyRet.pyTrue ∧
    compareSptTime "2024-07" "2024-01" = PyRet.pyNone ∧
    compareSptTime "2024-03" "2023-12" = PyRet.pyNone ∧
    (∀ (ks ds : String) (y m1 m2 : Nat),
      strptimeYm (sptNormalize ks) = some (y, m1) →
      strptimeYm (sptNormalize ds) = some (y, m2) →
      (compareSptTime ks ds = PyRet.pyTrue ↔
        -11 ≤ (m1 : Int) - (m2 : Int) ∧ (m1 : Int) - (m2 : Int) ≤ 2)) := by
  refine ⟨by decide, by decide, by decide, by decide, ?_⟩
  intro ks ds y m1 m2 hk hd
  have hempty : strptimeYm (sptNormalize "") = none := by decide
  have hksne : ks ≠ "" := by
    intro h; rw [h, hempty] at hk; exact Option.noConfusion hk
  have hdsne : ds ≠ "" := by
    intro h; rw [h, hempty] at hd; exact Option.noConfusion hd
  unfold compareSptTime
  rw [if_neg (by simp [hksne, hdsne]), hk, hd]
  have hy : ¬ ((y : Int) - (y : Int) < 0) := by omega
  constructor
  · intro h
    by_contra hw
    simp only [not_and_or, not_le] at hw
    have h0 : ¬ ((y : Int) - (y : Int) = 0 ∧
        (-11 ≤ (m1 : Int) - (m2 : Int) ∧ (m1 : Int) - (m2 : Int) < 3)) := by omega
    have h1 : ¬ ((y : Int) - (y : Int) = 1 ∧
        ((m1 : Int) - (m2 : Int) + 12 = 1 ∨ (m1 : Int) - (m2 : Int) + 12 = 2)) := by
      omega
    simp only [compareSptCore, if_neg hy, if_neg h0, if_neg h1] at h
    exact PyRet.noConfusion h
  · intro hw
    have h0 : (y : Int) - (y : Int) = 0 ∧
        (-11 ≤ (m1 : Int) - (m2 : Int) ∧ (m1 : Int) - (m2 : Int) < 3) := by omega
    simp only [compareSptCore, if_neg hy, if_pos h0]

/-- **C3 witness** for `compare_spt_time_boundaries`: the universal part at the
concrete same-year pair kit `2024-05`, device `2024-03` (interval 2,
accepted). -/
theorem compare_spt_time_boundaries_witness :
    compareSptTime "2024-05" "2024-03" = PyRet.pyTrue :=
  (compare_spt_time_boundaries.2.2.2.2 "2024-05" "2024-03" 2024 5 3
    (by decide) (by decide)).mpr (by decide)

/-- **C4 (code bug)** STS kit patch-level gate: for `sts-version`
`"sts_2024-03"` the claim (and the spec's stated intent) is that a device
security-patch value of `"2024-03-01"` or `"2024-03-05"` passes; because the
source calls `match.group(1).join("-01")` with the arguments reversed, the
kit instead accepts only the strings `"-2024-0302024-031"` and
`"-2024-0302024-035"` and raises `ParamError` on `"2024-03-01"` and
`"2024-03-05"`. -/
theorem sts_kit_patch_gate_code_bug :
    stsSetup "sts_2024-03" "2024-03-01" =
      Except.error "device SPL does not match the sts version" ∧
    stsSetup "sts_2024-03" "2024-03-05" =
      Except.error "device SPL does not match the sts version" ∧
    stsSetup "sts_2024-03" "-2024-0302024-031" = Except.ok () ∧
    stsSetup "sts_2024-03" "-2024-0302024-035" = Except.ok () := by
  refine ⟨by rfl, by rfl, by rfl, by rfl⟩

/-- **C2 (code bug)** XML escaping round-trip: because
`_create_empty_result_file` escapes `&` *after* the other three characters,
the entities produced for `"`, `<`, `>` are double-escaped; for the claim's
message `He said "x<y & y>x"` the written attribute value is
`He said &amp;quot;x&amp;lt;y &amp; y&amp;gt;x&amp;quot;`, which a standard
XML parser decodes to `He said &quot;x&lt;y & y&gt;x&quot;` — not the
original string. -/
theorem xml_escape_roundtrip_code_bug :
    escapeMessage "He said \"x<y & y>x\"" =
      "He said &amp;quot;x&amp;lt;y &amp; y&amp;gt;x&amp;quot;" ∧
    xmlDecode (escapeMessage "He said \"x<y & y>x\"") =
      "He said &quot;x&lt;y & y&gt;x&quot;" ∧
    xmlDecode (escapeMessage "He said \"x<y & y>x\"") ≠
      "He said \"x<y & y>x\"" := by
  refine ⟨by decide, by decide, by decide⟩

/-- **C10** `_create_empty_result_file` frame effect: when a file already
exists at the target path, the call neither writes nor touches the
filesystem — the existing report's content (and everything else) is
unchanged. -/
theorem create_empty_result_file_frame (ts : String) (fs : FileSystem)
    (path fn msg : String) (h : (fs.lookup path).isSome = true) :
    createEmptyResultFile ts fs path fn msg = fs := by
  simp only [createEmptyResultFile, h, if_pos]

/-- **C10 witness**: a filesystem already holding a report at `result.xml` is
returned unchanged. -/
theorem create_empty_result_file_frame_witness :
    (([("result.xml", "old")] : FileSystem).lookup "result.xml").isSome = true ∧
    createEmptyResultFile "2024-01-01 00:00:00" [("result.xml", "old")]
      "result.xml" "m.hap" "err" = [("result.xml", "old")] :=
  ⟨by decide, create_empty_result_file_frame "2024-01-01 00:00:00"
    [("result.xml", "old")] "result.xml" "m.hap" "err" (by decide)⟩

/-- **C6** Retry decorator attempt budget: a device action that always raises
an exception matched by none of the recovery branches (e.g. a plain
`DeviceError` subclass) is invoked exactly 3 times under the default
`retry=2` (`retry = max(requested, 0) + 1`), after which the last captured
exception propagates; with `abort_on_exception=True` it is invoked exactly
once and its exception propagates, whatever the retry value. -/
theorem perform_device_action_attempt_budget (e : PyExc)
    (he : e.cls = ExcClass.otherExc) (recover : Nat → Bool) :
    performDeviceAction (α := Unit) true false 2
        (fun _ => CallOutcome.raise e) recover =
      { calls := 3, result := .error e, recoverState := true } ∧
    ∀ retryArg : Int,
      performDeviceAction (α := Unit) true true retryArg
          (fun _ => CallOutcome.raise e) recover =
        { calls := 1, result := .error e, recoverState := true } := by
  constructor
  · simp only [performDeviceAction, deviceActionLoop, he]
    rfl
  · intro retryArg
    simp only [performDeviceAction]
    rfl

/-- **C6 witness**: at the concrete always-raising action with exception
class `otherExc` and a never-successful recovery oracle. -/
theorem perform_device_action_attempt_budget_witness :
    performDeviceAction (α := Unit) true false 2
        (fun _ => CallOutcome.raise ⟨ExcClass.otherExc, "boom"⟩)
        (fun _ => false) =
      { calls := 3, result := .error ⟨ExcClass.otherExc, "boom"⟩,
        recoverState := true } ∧
    performDeviceAction (α := Unit) true true 2
        (fun _ => CallOutcome.raise ⟨ExcClass.otherExc, "boom"⟩)
        (fun _ => false) =
      { calls := 1, result := .error ⟨ExcClass.otherExc, "boom"⟩,
        recoverState := true } :=
  ⟨(perform_device_action_attempt_budget ⟨ExcClass.otherExc, "boom"⟩
      (by rfl) (fun _ => false)).1,
    (perform_device_action_attempt_budget ⟨ExcClass.otherExc, "boom"⟩
      (by rfl) (fun _ => false)).2 2⟩

/-- **C9** Recover-state gate: when the device's recover-state flag is false,
every action wrapped by `perform_device_action` — with any
`abort_on_exception` and `retry` values and any underlying behavior —
returns `None` immediately: zero invocations of the underlying function and
no exception. -/
theorem perform_device_action_recover_state_gate (abortOnException : Bool)
    (retryArg : Int) (f : Nat → CallOutcome Unit) (recover : Nat → Bool) :
    performDeviceAction false abortOnException retryArg f recover =
      { calls := 0, result := .ok none, recoverState := false } := by
  simp [performDeviceAction]

/-! ### Helper lemmas for the C1 rerun analysis -/

lemma mem_removeTest {expected observed : List TestDescription}
    {t : TestDescription} :
    t ∈ removeTest expected observed ↔ t ∈ expected ∧ t ∉ observed := by
  simp [removeTest]

lemma removeTest_nodup {expected observed : List TestDescription}
    (h : expected.Nodup) : (removeTest expected observed).Nodup :=
  h.filter _

lemma collect_foldl (l : List TestDescription) :
    ∀ acc : List TestDescription, l.Nodup → (∀ t ∈ l, t ∉ acc) →
      l.foldl (fun acc t => if acc.contains t then acc else acc ++ [t]) acc =
        acc ++ l := by
  induction l with
  | nil => intro acc _ _; simp
  | cons t rest ih =>
    intro acc hnd hdis
    have htacc : ¬ (acc.contains t = true) := by
      simpa using hdis t (List.mem_cons_self t rest)
    rw [List.foldl_cons, if_neg htacc,
      ih (acc ++ [t]) hnd.of_cons ?_]
    · simp
    · intro u hu
      simp only [List.mem_append, List.mem_singleton]
      push_neg
      refine ⟨hdis u (List.mem_cons_of_mem t hu), ?_⟩
      rintro rfl
      exact (List.nodup_cons.mp hnd).1 hu

lemma collectUnique_eq_self {l : List TestDescription} (h : l.Nodup) :
    collectUnique l = l := by
  simpa [collectUnique] using collect_foldl l [] h (by simp)

lemma nodup_subset_singleton {l : List TestDescription} {t : TestDescription}
    (hnd : l.Nodup) (hsub : l ⊆ [t]) : l = [] ∨ l = [t] := by
  rcases List.subset_singleton_iff.mp hsub with ⟨n, rfl⟩
  have hn : n ≤ 1 := List.nodup_replicate.mp hnd
  interval_cases n
  · exact Or.inl rfl
  · exact Or.inr rfl

lemma length_filter_contains {expected observed : List TestDescription}
    (hexp : expected.Nodup) (hobs : observed.Nodup)
    (hsub : observed ⊆ expected) :
    (expected.filter (fun t => observed.contains t)).length =
      observed.length := by
  have h1 : List.Subperm observed
      (expected.filter (fun t => observed.contains t)) := by
    refine hobs.subperm ?_
    intro u hu
    rw [List.mem_filter]
    exact ⟨hsub hu, by simpa using hu⟩
  have h2 : List.Subperm
      (expected.filter (fun t => observed.contains t)) observed := by
    refine (hexp.filter _).subperm ?_
    intro u hu
    rw [List.mem_filter] at hu
    simpa using hu.2
  exact ((h1.antisymm h2).length_eq).symm

lemma removeTest_eq_filter_not (expected observed : List TestDescription) :
    removeTest expected observed =
      expected.filter (fun t => !(observed.contains t)) := by
  simp [removeTest]

lemma removeTest_length {expected observed : List TestDescription}
    (hexp : expected.Nodup) (hobs : observed.Nodup)
    (hsub : observed ⊆ expected) :
    (removeTest expected observed).length =
      expected.length - observed.length := by
  have hpart :=
    (List.filter_append_perm (fun t => observed.contains t) expected).length_eq
  rw [List.length_append] at hpart
  have hmem := length_filter_contains hexp hobs hsub
  rw [removeTest_eq_filter_not]
  omega

lemma observed_covers {expected observed : List TestDescription}
    (hobs : observed.Nodup) (hsub : observed ⊆ expected)
    (hlen : ¬ observed.length < expected.length) :
    observed.length = expected.length ∧ ∀ t ∈ expected, t ∈ observed := by
  have hsp : List.Subperm observed expected := hobs.subperm hsub
  have hperm : List.Perm observed expected :=
    hsp.perm_of_length_le (by omega)
  exact ⟨hperm.length_eq, fun t ht => hperm.mem_iff.mpr ht⟩

lemma rerunSerially_spec
    (oracle : Nat → List TestDescription → List TestDescription)
    (horacle : ∀ k F, (oracle k F).Nodup ∧ oracle k F ⊆ F) :
    ∀ (remaining : List TestDescription) (attempt k : Nat),
      (rerunSerially oracle attempt k remaining).length = remaining.length ∧
      ∀ t ∈ remaining,
        RunEvent.observedCase t ∈ rerunSerially oracle attempt k remaining ∨
        RunEvent.blockedCase t ∈ rerunSerially oracle attempt k remaining := by
  intro remaining
  induction remaining with
  | nil => intro attempt k; simp [rerunSerially]
  | cons t rest ih =>
    intro attempt k
    by_cases hatt : attempt ≠ 0
    · have hor := horacle k [t]
      rcases nodup_subset_singleton hor.1 hor.2 with hobs | hobs
      · have hstep : rerunSerially oracle attempt k (t :: rest) =
            [RunEvent.blockedCase t] ++
              rerunSerially oracle (attempt - 1) (k + 1) rest := by
          simp [rerunSerially, hatt, hobs, collectUnique]
        obtain ⟨ihl, ihm⟩ := ih (attempt - 1) (k + 1)
        refine ⟨by simp [hstep, ihl], ?_⟩
        intro u hu
        rcases List.mem_cons.mp hu with rfl | hu'
        · right; rw [hstep]; exact List.mem_append_left _ (by simp)
        · rcases ihm u hu' with h | h
          · left; rw [hstep]; exact List.mem_append_right _ h
          · right; rw [hstep]; exact List.mem_append_right _ h
      · have hstep : rerunSerially oracle attempt k (t :: rest) =
            [RunEvent.observedCase t] ++
              rerunSerially oracle attempt (k + 1) rest := by
          simp [rerunSerially, hatt, hobs, collectUnique]
        obtain ⟨ihl, ihm⟩ := ih attempt (k + 1)
        refine ⟨by simp [hstep, ihl], ?_⟩
        intro u hu
        rcases List.mem_cons.mp hu with rfl | hu'
        · left; rw [hstep]; exact List.mem_append_left _ (by simp)
        · rcases ihm u hu' with h | h
          · left; rw [hstep]; exact List.mem_append_right _ h
          · right; rw [hstep]; exact List.mem_append_right _ h
    · have h0 : attempt = 0 := by omega
      subst h0
      have hstep : rerunSerially oracle 0 k (t :: rest) =
          RunEvent.blockedCase t :: rerunSerially oracle 0 k rest := by
        simp [rerunSerially]
      obtain ⟨ihl, ihm⟩ := ih 0 k
      refine ⟨by simp [hstep, ihl], ?_⟩
      intro u hu
      rcases List.mem_cons.mp hu with rfl | hu'
      · right; rw [hstep]; exact List.mem_cons_self _ _
      · rcases ihm u hu' with h | h
        · left; rw [hstep]; exact List.mem_cons_of_mem _ h
        · right; rw [hstep]; exact List.mem_cons_of_mem _ h

/-- **C1** Rerun completeness: for a module whose dry run yields a non-empty
expected set, after `CppTestDriver`'s full rerun sequence (initial run in
`_run_with_rerun`, bulk rerun in `_rerun_all`, serial rerun through
`RemoteCppTestRunner.rerun` with its bounded attempt counter and blocked-mark
fallback) every expected test is either present in the observed run results
or delivered to the listeners as a synthesized blocked `CaseResult`, and the
total number of `CaseResult` deliveries equals the expected test count.  The
oracle hypothesis states the physical behavior of a GTest binary: an
invocation reports only tests selected by its filter, each at most once. -/
theorem cpp_rerun_completeness
    (oracle : Nat → List TestDescription → List TestDescription)
    (rerunAllFlag : Bool) (expected : List TestDescription)
    (_hne : expected ≠ []) (hexp : expected.Nodup)
    (horacle : ∀ k F, (oracle k F).Nodup ∧ oracle k F ⊆ F) :
    (runWithRerun oracle rerunAllFlag expected).length = expected.length ∧
    ∀ t ∈ expected,
      RunEvent.observedCase t ∈ runWithRerun oracle rerunAllFlag expected ∨
      RunEvent.blockedCase t ∈ runWithRerun oracle rerunAllFlag expected := by
  obtain ⟨hnd0, hsub0⟩ := horacle 0 expected
  have hcu0 : collectUnique (oracle 0 expected) = oracle 0 expected :=
    collectUnique_eq_self hnd0
  have hrw : runWithRerun oracle rerunAllFlag expected =
      if (oracle 0 expected).length < expected.length then
        if rerunAllFlag then
          (oracle 0 expected).map RunEvent.observedCase ++
            rerunAll oracle 1 (removeTest expected (oracle 0 expected)) expected
        else
          (oracle 0 expected).map RunEvent.observedCase ++
            rerunSerially oracle failedRunTestAttempts 1
              (removeTest expected (oracle 0 expected))
      else (oracle 0 expected).map RunEvent.observedCase := by
    simp only [runWithRerun, hcu0]
  by_cases hlt : (oracle 0 expected).length < expected.length
  swap
  · obtain ⟨hlen, hcov⟩ := observed_covers hnd0 hsub0 hlt
    rw [hrw, if_neg hlt]
    refine ⟨by simpa using hlen, ?_⟩
    intro t ht
    exact Or.inl (List.mem_map_of_mem _ (hcov t ht))
  · have hRnd : (removeTest expected (oracle 0 expected)).Nodup :=
      removeTest_nodup hexp
    have hRlen : (removeTest expected (oracle 0 expected)).length =
        expected.length - (oracle 0 expected).length :=
      removeTest_length hexp hnd0 hsub0
    have hsplit : ∀ t ∈ expected, t ∈ oracle 0 expected ∨
        t ∈ removeTest expected (oracle 0 expected) := by
      intro t ht
      by_cases h : t ∈ oracle 0 expected
      · exact Or.inl h
      · exact Or.inr (mem_removeTest.mpr ⟨ht, h⟩)
    rcases rerunAllFlag with _ | _
    · -- rerun_all = False: straight to the serial rerun
      obtain ⟨hsl, hsm⟩ := rerunSerially_spec oracle horacle
        (removeTest expected (oracle 0 expected)) failedRunTestAttempts 1
      rw [hrw, if_pos hlt]
      simp only [Bool.false_eq_true, if_false]
      constructor
      · rw [List.length_append, List.length_map, hsl]
        omega
      · intro t ht
        rcases hsplit t ht with h | h
        · exact Or.inl (List.mem_append_left _ (List.mem_map_of_mem _ h))
        · rcases hsm t h with h' | h'
          · exact Or.inl (List.mem_append_right _ h')
          · exact Or.inr (List.mem_append_right _ h')
    · -- rerun_all = True: bulk rerun, then (possibly) serial
      have hRne : removeTest expected (oracle 0 expected) ≠ [] := by
        intro h
        rw [h] at hRlen
        simp only [List.length_nil] at hRlen
        omega
      obtain ⟨hnd1, hsub1⟩ :=
        horacle 1 (removeTest expected (oracle 0 expected))
      have hcu1 : collectUnique
          (oracle 1 (removeTest expected (oracle 0 expected))) =
          oracle 1 (removeTest expected (oracle 0 expected)) :=
        collectUnique_eq_self hnd1
      have hrw2 : rerunAll oracle 1
          (removeTest expected (oracle 0 expected)) expected =
          if (oracle 1 (removeTest expected (oracle 0 expected))).length <
              (removeTest expected (oracle 0 expected)).length then
            (oracle 1 (removeTest expected (oracle 0 expected))).map
                RunEvent.observedCase ++
              rerunSerially oracle failedRunTestAttempts 2
                (removeTest (removeTest expected (oracle 0 expected))
                  (oracle 1 (removeTest expected (oracle 0 expected))))
          else
            (oracle 1 (removeTest expected (oracle 0 expected))).map
              RunEvent.observedCase := by
        have hie : (removeTest expected (oracle 0 expected)).isEmpty = false := by
          simp [List.isEmpty_iff, hRne]
        simp only [rerunAll, hie, Bool.false_eq_true, if_false, hcu1]
      rw [hrw, if_pos hlt]
      simp only [if_true]
      by_cases hlt2 : (oracle 1 (removeTest expected (oracle 0 expected))).length <
          (removeTest expected (oracle 0 expected)).length
      swap
      · obtain ⟨hlen1, hcov1⟩ := observed_covers hnd1 hsub1 hlt2
        rw [hrw2, if_neg hlt2]
        constructor
        · rw [List.length_append, List.length_map, List.length_map, hlen1]
          omega
        · intro t ht
          rcases hsplit t ht with h | h
          · exact Or.inl (List.mem_append_left _ (List.mem_map_of_mem _ h))
          · exact Or.inl (List.mem_append_right _
              (List.mem_map_of_mem _ (hcov1 t h)))
      · have hR2nd : (removeTest (removeTest expected (oracle 0 expected))
            (oracle 1 (removeTest expected (oracle 0 expected)))).Nodup :=
          removeTest_nodup hRnd
        have hR2len := removeTest_length hRnd hnd1 hsub1
        obtain ⟨hsl, hsm⟩ := rerunSerially_spec oracle horacle
          (removeTest (removeTest expected (oracle 0 expected))
            (oracle 1 (removeTest expected (oracle 0 expected))))
          failedRunTestAttempts 2
        have hsplit2 : ∀ t ∈ removeTest expected (oracle 0 expected),
            t ∈ oracle 1 (removeTest expected (oracle 0 expected)) ∨
            t ∈ removeTest (removeTest expected (oracle 0 expected))
              (oracle 1 (removeTest expected (oracle 0 expected))) := by
          intro t ht
          by_cases h : t ∈ oracle 1 (removeTest expected (oracle 0 expected))
          · exact Or.inl h
          · exact Or.inr (mem_removeTest.mpr ⟨ht, h⟩)
        rw [hrw2, if_pos hlt2]
        constructor
        · rw [List.length_append, List.length_map, List.length_append,
            List.length_map, hsl]
          omega
        · intro t ht
          rcases hsplit t ht with h | h
          · exact Or.inl (List.mem_append_left _ (List.mem_map_of_mem _ h))
          · rcases hsplit2 t h with h' | h'
            · exact Or.inl (List.mem_append_right _
                (List.mem_append_left _ (List.mem_map_of_mem _ h')))
            · rcases hsm t h' with h'' | h''
              · exact Or.inl (List.mem_append_right _
                  (List.mem_append_right _ h''))
              · exact Or.inr (List.mem_append_right _
                  (List.mem_append_right _ h''))

/-- **C1 witness**: concrete instance — two expected tests, an oracle (device
behavior) that never reports any test; after the full rerun sequence both
tests are delivered (as blocked results) and the delivery count is 2. -/
theorem cpp_rerun_completeness_witness :
    (runWithRerun (fun _ _ => []) true
        [⟨"CalcTest", "add"⟩, ⟨"CalcTest", "sub"⟩]).length = 2 ∧
    ∀ t ∈ ([⟨"CalcTest", "add"⟩, ⟨"CalcTest", "sub"⟩] : List TestDescription),
      RunEvent.observedCase t ∈ runWithRerun (fun _ _ => []) true
        [⟨"CalcTest", "add"⟩, ⟨"CalcTest", "sub"⟩] ∨
      RunEvent.blockedCase t ∈ runWithRerun (fun _ _ => []) true
        [⟨"CalcTest", "add"⟩, ⟨"CalcTest", "sub"⟩] :=
  cpp_rerun_completeness (fun _ _ => []) true
    [⟨"CalcTest", "add"⟩, ⟨"CalcTest", "sub"⟩]
    (by decide) (by decide)
    (fun _ _ => ⟨List.nodup_nil, fun t ht => absurd ht (List.not_mem_nil t)⟩)

/-- **C5 counterexample**: the claim quantifies over *every* registered
parser, including `JSUnitParserLite`; but `JSUnitParserLite.__done__` is
literally `pass`, so feeding it a suites-start marker line (carrying the ACE
`[Console Info]` prefix the parser requires) and then `__done__()` delivers
*zero* suite-ended and *zero* suites-ended events and leaves the suites
scope open — not the claimed balanced pair. -/
theorem jsunit_parser_done_counterexample :
    (jsProcessLines (fun _ _ => 0) {}
        ["06-15 12:00:00.000 [Console Info] [start] start run suites"]).map
      (fun p =>
        (countSuiteEnded (jsDone p).events, countSuitesEnded (jsDone p).events,
          (jsDone p).sm.suitesIsStarted)) = some (0, 0, true) := by
  rfl

/-- **C5 (amended)** Parser closure on done, for the GTest parser: feeding
`CppTestParserLite` — with the non-empty suite name the driver assigns —
a suites-start marker line through `__process__` and then calling
`__done__()` with no suite-end/suites-end markers still delivers exactly one
suite-ended and one suites-ended event to every attached listener and leaves
no open suites scope; `JSUnitParserLite`'s `__done__`, by contrast, is a
no-op (see the counterexample). -/
theorem cpp_parser_done_closure (sn : String) (hsn : sn ≠ "") :
    (cppProcessLines { suiteName := sn }
        ["[==========] Running 3 tests from 1 test suite."]).map
      (fun p =>
        (countSuiteEnded (cppDone p).events, countSuitesEnded (cppDone p).events,
          (cppDone p).sm.suitesIsStarted)) = some (1, 1, false) := by
  have h1 : cppProcessLines { suiteName := sn }
      ["[==========] Running 3 tests from 1 test suite."] =
      some { sm := { currentSuites := some { suitesName := sn, testNum := 3 },
                     traceLogs := ["[==========] Running 3 tests from 1 test suite."] },
             suiteName := sn,
             events := [PEvent.suitesStarted { suitesName := sn, testNum := 3 }] } := rfl
  rw [h1, Option.map_some']
  simp only [cppDone, StateRecorder.suite, StateRecorder.getSuites]
  rw [if_neg hsn]
  rfl

/-- **C5 witness**: the amended closure at the concrete suite name
`"MyModule"`. -/
theorem cpp_parser_done_closure_witness :
    (cppProcessLines { suiteName := "MyModule" }
        ["[==========] Running 3 tests from 1 test suite."]).map
      (fun p =>
        (countSuiteEnded (cppDone p).events, countSuitesEnded (cppDone p).events,
          (cppDone p).sm.suitesIsStarted)) = some (1, 1, false) :=
  cpp_parser_done_closure "MyModule" (by decide)

/-- **C8** Per-job configuration isolation: building two driver requests from
the same task config via `_get_driver_request` gives each job a `Config`
whose `testargs` lives at a fresh heap address; mutating the first job's
`testargs` leaves both the second job's copy and the task's original
`testargs` unchanged (and only the first job's copy sees the mutation). -/
theorem driver_request_config_isolation (ta : TestArgs)
    (f : TestArgs → TestArgs) :
    let task : ConfigObj := ⟨0⟩
    let h0 : DictHeap := ⟨[ta]⟩
    let r1 := getDriverRequestConfig h0 task
    let r2 := getDriverRequestConfig r1.2 task
    let h3 := mutateTestargs r2.2 r1.1 f
    readTestargs h3 r2.1 = ta ∧ readTestargs h3 task = ta ∧
      readTestargs h3 r1.1 = f ta := by
  refine ⟨rfl, rfl, rfl⟩
